import Mathlib

/-!
Verification of the smart-vision-bot core against its specification.

The Python source is shallowly embedded: each relevant class becomes a
structure over pure data, each method a pure function on that data.
External collaborators (camera device, face detector/recognizer, TTS
backend, web modules, LLM) are passed in as oracle functions; fallible
oracles return `Except`.  Wall-clock instants (`time.time()` floats) are
modelled as rationals.  Frames are opaque and modelled as `Nat`.
-/

namespace SmartVisionBot

/-! ## camera/stream.py — `VideoStream` (the frame buffer)

`VideoStream.__init__` stores a `queue.Queue(maxsize=queue_size)` and a
`stopped` flag.  In Python, `Queue(maxsize=0)` is an unbounded queue and
`full()` is `0 < maxsize <= qsize()`.  The producer loop `update` pushes
each captured frame, evicting the oldest when the queue is full; `read`
is `Q.get(timeout=1.0)` returning `None` on `queue.Empty`; `stop` sets
the `stopped` flag, joins the thread and releases the camera.  The queue
is modelled as a list with the oldest element at the head. -/

structure VideoStream where
  capacity : Nat
  Q : List Nat
  stopped : Bool
deriving Repr, DecidableEq

namespace VideoStream

/-- `VideoStream.__init__`: no validation is performed on `queue_size`;
construction always succeeds with an empty queue.  The `Option` result
records whether construction can fail (it cannot). -/
def init (queue_size : Nat) : Option VideoStream :=
  some { capacity := queue_size, Q := [], stopped := false }

/-- `queue.Queue.full()`: true iff `0 < maxsize <= qsize()`. -/
def qFull (s : VideoStream) : Prop :=
  0 < s.capacity ∧ s.capacity ≤ s.Q.length

instance (s : VideoStream) : Decidable s.qFull := by
  unfold qFull
  infer_instance

/-- One successful iteration of `VideoStream.update` after a frame was
captured: if the queue is not full, `put` the frame; otherwise
`get_nowait()` the oldest frame and `put` the new one (if `get_nowait`
raises `queue.Empty`, the `except` clause skips the `put` as well). -/
def update_push (s : VideoStream) (frame : Nat) : VideoStream :=
  if qFull s then
    match s.Q with
    | [] => s
    | _ :: rest => { s with Q := rest ++ [frame] }
  else
    { s with Q := s.Q ++ [frame] }

/-- `VideoStream.read`: `Q.get(timeout=1.0)`, returning the oldest
queued frame when one is available within the timeout and `None` on
`queue.Empty`.  The `stopped` flag is not consulted. -/
def read (s : VideoStream) : Option Nat × VideoStream :=
  match s.Q with
  | [] => (none, s)
  | f :: rest => (some f, { s with Q := rest })

/-- `VideoStream.stop`: sets `stopped`, joins the capture thread and
releases the camera.  The queue itself is left untouched. -/
def stop (s : VideoStream) : VideoStream :=
  { s with stopped := true }

end VideoStream

/-! ## app.py — `SmartVisionBot` state and `greet_person`

The bot's mutable fields (`identified`, `current_person`,
`last_greeting_time`, `chat_history`) become a state record; calls to
`tts_engine.speak` are logged in `spoken` (newest last).  `time.time()`
instants are rationals; `datetime.now()` is passed in as `hour`/`minute`
(`strftime("%H:%M")` is zero-padded formatting). -/

structure Msg where
  role : String
  content : String
deriving Repr, DecidableEq

structure BotState where
  identified : Bool
  current_person : Option String
  last_greeting_time : ℚ
  chat_history : List Msg
  spoken : List String
deriving Repr, DecidableEq

/-- Two-digit zero-padded rendering used by `strftime("%H:%M")`. -/
def pad2 (n : Nat) : String :=
  if n < 10 then "0" ++ toString n else toString n

/-- `datetime.now().strftime("%H:%M")`. -/
def formatHM (hour minute : Nat) : String :=
  pad2 hour ++ ":" ++ pad2 minute

/-- The three time-of-day greeting f-strings of `greet_person`. -/
def greetingText (hour : Nat) (person_name hm : String) : String :=
  if hour < 12 then
    "Good morning " ++ person_name ++ "! It's " ++ hm ++ ". How can I help you today?"
  else if hour < 17 then
    "Good afternoon " ++ person_name ++ "! It's " ++ hm ++ ". What can I do for you?"
  else
    "Good evening " ++ person_name ++ "! It's " ++ hm ++ ". How may I assist you?"

/-- The system message seeding the fresh chat history. -/
def systemPrompt (person_name : String) : String :=
  "You are a helpful AI assistant talking to " ++ person_name
    ++ ". Be friendly and conversational."

/-- `SmartVisionBot.greet_person`: returns unchanged state when fewer
than 15 seconds elapsed since `last_greeting_time`; otherwise speaks the
time-of-day greeting, records the debounce timestamp, marks the person
identified and reseeds the chat history with one system message. -/
def greet_person (now : ℚ) (hour minute : Nat) (st : BotState)
    (person_name : String) : BotState :=
  if now - st.last_greeting_time < 15 then st
  else
    { st with
      spoken := st.spoken ++ [greetingText hour person_name (formatHM hour minute)]
      last_greeting_time := now
      identified := true
      current_person := some person_name
      chat_history := [⟨"system", systemPrompt person_name⟩] }

/-- `SmartVisionBot.detect_and_recognize`: returns `None` immediately
when already identified; otherwise detects faces (oracle `detect`) and
identifies the first detected box (oracle `identify`). -/
def detect_and_recognize (detect : Nat → List Nat)
    (identify : Nat → Nat → Option String)
    (identified : Bool) (frame : Nat) : Option String :=
  if identified then none
  else
    match detect frame with
    | [] => none
    | b :: _ => identify frame b

/-- The face-recognition step of one `SmartVisionBot.run` iteration
(lines 176-182): only when not identified, run `detect_and_recognize`;
on a truthy name (Python: non-`None`, non-empty), greet the person and
start the chat thread.  The returned `Bool` records whether a chat
session thread was started. -/
def runStep (detect : Nat → List Nat)
    (identify : Nat → Nat → Option String)
    (now : ℚ) (hour minute : Nat) (st : BotState) (frame : Nat) :
    BotState × Bool :=
  if st.identified then (st, false)
  else
    match detect_and_recognize detect identify st.identified frame with
    | none => (st, false)
    | some person_name =>
      if person_name = "" then (st, false)
      else (greet_person now hour minute st person_name, true)

/-! ## audio/tts.py — `TTSEngine`

The engine state keeps the `speech_queue` (oldest first), the
`is_speaking` flag, whether `pyttsx3.init()` succeeded (`engineOk`),
and the console fallback lines printed when no engine is available.
`_clean_text_for_speech` is modelled on `List Char`: the emoji regex
character class becomes a filter, Python `str.replace` becomes a
left-to-right non-overlapping list rewrite applied for each pair in the
dictionary's insertion order, and `' '.join(text.split())` becomes a
whitespace split-filter-join. -/

/-- Membership in the emoji regex character class of
`_clean_text_for_speech`. -/
def isEmojiChar (c : Char) : Bool :=
  let n := c.toNat
  (0x1F600 ≤ n && n ≤ 0x1F64F) ||
  (0x1F300 ≤ n && n ≤ 0x1F5FF) ||
  (0x1F680 ≤ n && n ≤ 0x1F6FF) ||
  (0x1F1E0 ≤ n && n ≤ 0x1F1FF) ||
  (0x2702 ≤ n && n ≤ 0x27B0) ||
  (0x24C2 ≤ n && n ≤ 0x1F251)

/-- `emoji_pattern.sub('', text)`: drop every character of the class. -/
def removeEmoji (s : String) : String :=
  ⟨s.data.filter (fun c => !isEmojiChar c)⟩

/-- Python `str.replace`: left-to-right, non-overlapping replacement of
every occurrence of `pat` by `rep`.  The `fuel` argument (instantiated
with the list's length, which bounds the number of steps) makes the
recursion structural. -/
def replaceAux (pat rep : List Char) : Nat → List Char → List Char
  | _, [] => []
  | 0, s => s
  | fuel + 1, c :: rest =>
    if pat.isPrefixOf (c :: rest) && !pat.isEmpty then
      rep ++ replaceAux pat rep fuel (rest.drop (pat.length - 1))
    else
      c :: replaceAux pat rep fuel rest

def replaceList (pat rep s : List Char) : List Char :=
  replaceAux pat rep s.length s

def stringReplace (s pat rep : String) : String :=
  ⟨replaceList pat.data rep.data s.data⟩

/-- The `replacements` dictionary of `_clean_text_for_speech`, in
insertion (iteration) order. -/
def replacements : List (String × String) :=
  [("°C", " degrees Celsius"),
   ("°F", " degrees Fahrenheit"),
   ("%", " percent"),
   ("&", " and "),
   ("@", " at "),
   ("#", " hash "),
   ("$", " dollars "),
   ("€", " euros "),
   ("£", " pounds "),
   ("₹", " rupees "),
   ("...", " "),
   ("..", " "),
   ("  ", " ")]

def applyReplacements (s : String) : String :=
  replacements.foldl (fun t pr => stringReplace t pr.1 pr.2) s

/-- Python `text.split()`: split on runs of whitespace, discarding
empty pieces.  `acc` holds the current word reversed. -/
def pySplitAux : List Char → List Char → List (List Char)
  | [], acc => if acc.isEmpty then [] else [acc.reverse]
  | c :: rest, acc =>
    if c.isWhitespace then
      if acc.isEmpty then pySplitAux rest []
      else acc.reverse :: pySplitAux rest []
    else pySplitAux rest (c :: acc)

/-- `' '.join(words)`. -/
def joinSpace : List (List Char) → List Char
  | [] => []
  | [w] => w
  | w :: ws => w ++ ' ' :: joinSpace ws

/-- Python `str.strip()`: drop leading and trailing whitespace. -/
def pyStripL (l : List Char) : List Char :=
  ((l.dropWhile Char.isWhitespace).reverse.dropWhile Char.isWhitespace).reverse

def pyStrip (s : String) : String :=
  ⟨pyStripL s.data⟩

/-- `TTSEngine._clean_text_for_speech`: emoji removal, then the symbol
replacements, then `' '.join(text.split())`, then `strip()`. -/
def clean_text_for_speech (text : String) : String :=
  ⟨pyStripL (joinSpace (pySplitAux (applyReplacements (removeEmoji text)).data []))⟩

structure TTSState where
  engineOk : Bool
  speech_queue : List String
  is_speaking : Bool
  printed : List String
deriving Repr, DecidableEq

/-- `TTSEngine.stop_current_speech`: only when an engine exists and a
playback is in progress does it halt the playback, drain the queue and
clear `is_speaking`; otherwise the guard fails and nothing happens. -/
def stop_current_speech (s : TTSState) : TTSState :=
  if s.engineOk && s.is_speaking then
    { s with speech_queue := [], is_speaking := false }
  else s

/-- `TTSEngine.is_busy`: speaking now, or items still queued. -/
def is_busy (s : TTSState) : Bool :=
  s.is_speaking || !s.speech_queue.isEmpty

/-- `TTSEngine.speak`: with no engine, print the text instead; skip
empty/whitespace-only text; otherwise sanitize the text, optionally
interrupt, and enqueue the sanitized form. -/
def speak (s : TTSState) (text : String) (interrupt : Bool) : TTSState :=
  if !s.engineOk then
    { s with printed := s.printed ++ [text] }
  else if pyStrip text = "" then s
  else
    let clean := clean_text_for_speech text
    let s1 := if interrupt then stop_current_speech s else s
    { s1 with speech_queue := s1.speech_queue ++ [clean] }

/-! ## app.py — `start_chat_session` (the chat loop)

The loop reads one user input per turn.  The novel part of the state is
the local `voice_enabled` flag and the printed/spoken transcripts; the
bot fields (`identified`, `current_person`, `chat_history`, `running`)
are threaded through so the theorems can speak about them.  The router
call `self.chat_router.process_query(user_input, self.chat_history,
self.llm_client)` is an external, fallible oracle returning either a
reply (with the possibly-extended history) or a raised exception; per
the `except Exception` clause a raised exception is printed as
`❌ Error in chat: {e}` and the loop continues. -/

structure ChatState where
  identified : Bool
  current_person : Option String
  chat_history : List Msg
  running : Bool
  voice_enabled : Bool
  outputs : List String
  spoken : List String
deriving Repr, DecidableEq

/-- Python `str(x)` for an optional person (`str(None) = "None"`). -/
def pyStr : Option String → String
  | some s => s
  | none => "None"

/-- Python `str.lower()` (ASCII case folding). -/
def pyLower (s : String) : String :=
  ⟨s.data.map Char.toLower⟩

/-- One iteration of the `while` body of `start_chat_session` for a
given raw input line.  Returns the new state and `true` when the loop
continues (`continue` or end of body) or `false` on `break`. -/
def chat_turn
    (process_query : String → List Msg → Except String (String × List Msg))
    (st : ChatState) (raw : String) : ChatState × Bool :=
  let user_input := pyStrip raw
  let low := pyLower user_input
  if low = "quit" ∨ low = "exit" ∨ low = "bye" then
    let farewell := "Goodbye " ++ pyStr st.current_person ++ "! Have a great day!"
    ({ st with
        outputs := st.outputs ++ [farewell]
        spoken := if st.voice_enabled then st.spoken ++ [farewell] else st.spoken },
      false)
  else if low = "voice on" then
    ({ st with voice_enabled := true
               outputs := st.outputs ++ ["Voice responses enabled!"] }, true)
  else if low = "voice off" then
    ({ st with voice_enabled := false
               outputs := st.outputs ++ ["Voice responses disabled!"] }, true)
  else if user_input = "" then (st, true)
  else
    match process_query user_input st.chat_history with
    | .ok (response, hist) =>
      ({ st with
          chat_history := hist
          outputs := st.outputs ++ [response]
          spoken := if st.voice_enabled then st.spoken ++ [response] else st.spoken },
        true)
    | .error e =>
      ({ st with outputs := st.outputs ++ ["❌ Error in chat: " ++ e] }, true)

/-- The `while self.identified and self.running` loop over a finite
sequence of input lines (exhausting the inputs models the user closing
the input stream / `KeyboardInterrupt`). -/
def chat_loop
    (process_query : String → List Msg → Except String (String × List Msg))
    (st : ChatState) : List String → ChatState
  | [] => st
  | u :: rest =>
    if st.identified && st.running then
      match chat_turn process_query st u with
      | (st', true) => chat_loop process_query st' rest
      | (st', false) => st'
    else st

/-- `SmartVisionBot.start_chat_session`: print the session header, set
`voice_enabled = True`, run the loop, then perform the mandatory reset
(`identified = False`, `current_person = None`, `chat_history = []`). -/
def start_chat_session
    (process_query : String → List Msg → Except String (String × List Msg))
    (st : ChatState) (inputs : List String) : ChatState :=
  let st0 := { st with
    voice_enabled := true
    outputs := st.outputs
      ++ ["💬 Chat session started with " ++ pyStr st.current_person] }
  let st1 := chat_loop process_query st0 inputs
  { st1 with
    identified := false
    current_person := none
    chat_history := []
    outputs := st1.outputs ++ ["🔄 Chat session ended. Looking for faces again..."] }

/-! ## chatbot/router.py — `route`

Intent predicates are `re.search(r"\b(kw1|kw2|...)\b", q, re.I)`: some
keyword occurs in the query, case-insensitively, delimited by word
boundaries (`\w` is alphanumeric or underscore; the queries of interest
are ASCII).  The web/LLM modules are fallible oracles.  Python
truthiness of a returned string (`if fact:` / `if ai_resp:`) is
emptiness of the string, with `None` results modelled as `Option`. -/

def isWordChar (c : Char) : Bool :=
  c.isAlphanum || c = '_'

/-- Does `k` occur starting at some position of the list, with non-word
characters (or the ends of the string) adjacent on both sides?  `prev`
is the character just before the current position. -/
def scanWord (k : List Char) : Option Char → List Char → Bool
  | _, [] => false
  | prev, c :: rest =>
    (k.isPrefixOf (c :: rest)
      && (match prev with
          | none => true
          | some p => !isWordChar p)
      && (match (c :: rest).drop k.length with
          | [] => true
          | a :: _ => !isWordChar a))
    || scanWord k (some c) rest

/-- `re.search(r"\b<k>\b", q, re.I)` for a keyword made of word
characters (possibly with internal spaces). -/
def containsKeyword (q k : String) : Bool :=
  scanWord (pyLower k).data none (pyLower q).data

/-- Python `k in q.lower()` (plain substring, `k` lowercase). -/
def containsSubAux (k : List Char) : List Char → Bool
  | [] => k.isEmpty
  | c :: rest => k.isPrefixOf (c :: rest) || containsSubAux k rest

def containsSub (q k : String) : Bool :=
  containsSubAux k.data (pyLower q).data

def is_weather (q : String) : Bool :=
  ["weather", "forecast", "temperature", "rain", "rainfall", "sunrise",
   "sunset", "wind", "humidity"].any (fun k => containsKeyword q k)

def is_news (q : String) : Bool :=
  ["news", "headlines", "breaking", "latest"].any (fun k => containsKeyword q k)

def is_finance (q : String) : Bool :=
  ["stock", "share", "price", "bitcoin", "crypto", "btc", "eth", "market",
   "nifty", "sensex"].any (fun k => containsKeyword q k)

def is_fact (q : String) : Bool :=
  ["who", "what", "when", "where", "tell me about", "define", "explain",
   "is it true"].any (fun k => containsKeyword q k)

/-- The module calls made by `route`, as fallible oracles.  `get_news`
may return a list (joined with blank lines) or any other value
(stringified); `extract_ticker` and `query_facts` may return `None`. -/
structure RouterOracles where
  get_weather : String → Except String String
  get_news : String → Except String (List String ⊕ String)
  extract_ticker : String → Except String (Option String)
  get_price_for_ticker : String → Except String String
  query_facts : String → Except String (Option String)
  query_groq : String → Except String String

/-- `"\n\n".join(items)`. -/
def joinBlankLine : List String → String
  | [] => ""
  | [x] => x
  | x :: xs => x ++ "\n\n" ++ joinBlankLine xs

/-- `ChatRouter`-level `route(query, chat_history)`: normalizes the
query (`(query or "").strip()`), dispatches weather → news → finance →
facts → LLM, catches each module's exceptions per the source's
`try`/`except` blocks, and falls back to a "system" apology.  The outer
`except Exception` around the whole body is unreachable for the modelled
(total) oracle calls, so the function is total. -/
def route (o : RouterOracles) (query : Option String) : String × String :=
  let q := pyStrip (query.getD "")
  if is_weather q then
    match o.get_weather q with
    | .ok text => ("weather", text)
    | .error e => ("system", "Weather module error: " ++ e)
  else if is_news q then
    match o.get_news q with
    | .ok (Sum.inl items) => ("gnews", joinBlankLine items)
    | .ok (Sum.inr s) => ("gnews", s)
    | .error e => ("system", "News module error: " ++ e)
  else if is_finance q then
    match o.extract_ticker q with
    | .ok (some ticker) =>
      (match o.get_price_for_ticker ticker with
       | .ok price => ("finance", price)
       | .error e => ("system", "Finance module error: " ++ e))
    | .ok none =>
      ("finance", "Please specify a company or ticker (e.g., 'Tata Motors', 'AAPL', 'BTC').")
    | .error e => ("system", "Finance module error: " ++ e)
  else
    let factReply : Option String :=
      if is_fact q
          || ["current", "latest", "today", "now", "as of"].any
               (fun k => containsSub q k) then
        match o.query_facts q with
        | .ok (some fact) => if fact = "" then none else some fact
        | .ok none => none
        | .error _ => none
      else none
    match factReply with
    | some fact => ("fact", fact)
    | none =>
      match o.query_groq q with
      | .ok ai =>
        if ai = "" then ("system", "Sorry — I couldn't answer that right now.")
        else ("ai", ai)
      | .error _ => ("system", "Sorry — I couldn't answer that right now.")

end SmartVisionBot

namespace SmartVisionBot

/-- C2: pushing preserves the capacity bound, always retains the
most-recently pushed frame, and at capacity evicts exactly the oldest
frame.  `update_push` is a total function, so the producer never
blocks. -/
theorem frameBuffer_drop_oldest (s : VideoStream) (f : Nat)
    (hcap : 0 < s.capacity) (hlen : s.Q.length ≤ s.capacity) :
    (VideoStream.update_push s f).Q.length ≤ s.capacity ∧
    (VideoStream.update_push s f).Q.getLast? = some f ∧
    (s.Q.length = s.capacity →
      (VideoStream.update_push s f).Q = s.Q.drop 1 ++ [f]) := by
  obtain ⟨cap, Q, stp⟩ := s
  simp only at hcap hlen
  cases Q with
  | nil =>
    have hnf : ¬ VideoStream.qFull ⟨cap, [], stp⟩ := by
      rintro ⟨h1, h2⟩
      simp only [VideoStream.qFull, List.length_nil, Nat.le_zero] at h2
      omega
    simp only [VideoStream.update_push, if_neg hnf, List.nil_append]
    refine ⟨by simpa using hcap, by simp, ?_⟩
    intro h
    simp only [List.length_nil] at h
    omega
  | cons q rest =>
    by_cases hfull : VideoStream.qFull ⟨cap, q :: rest, stp⟩
    · simp only [VideoStream.update_push, if_pos hfull]
      obtain ⟨-, hle⟩ := hfull
      simp only [List.length_cons] at hle hlen
      refine ⟨?_, ?_, ?_⟩
      · simp only [List.length_append, List.length_cons, List.length_nil]
        omega
      · simp [List.getLast?_append]
      · intro _
        simp
    · simp only [VideoStream.update_push, if_neg hfull]
      have hlt : q :: rest ≠ [] := by simp
      simp only [VideoStream.qFull, not_and, not_le, List.length_cons] at hfull
      refine ⟨?_, ?_, ?_⟩
      · simp only [List.length_append, List.length_cons, List.length_nil]
        have := hfull hcap
        omega
      · rw [List.getLast?_concat]
      · intro h
        have := hfull hcap
        simp only [List.length_cons] at h
        omega

/-- Witness for C2 at a concrete buffer already at capacity 2. -/
theorem frameBuffer_drop_oldest_witness :
    0 < (2 : Nat) ∧ ([10, 11] : List Nat).length ≤ 2 ∧
    (VideoStream.update_push ⟨2, [10, 11], false⟩ 12).Q.length ≤ 2 ∧
    (VideoStream.update_push ⟨2, [10, 11], false⟩ 12).Q.getLast? = some 12 ∧
    (VideoStream.update_push ⟨2, [10, 11], false⟩ 12).Q = [11, 12] := by
  have h := frameBuffer_drop_oldest ⟨2, [10, 11], false⟩ 12
    (by decide) (by decide)
  refine ⟨by decide, by decide, h.1, h.2.1, ?_⟩
  have := h.2.2 (by decide)
  simpa using this

/-- C6 counterexample: after `stop`, a `read` on the (empty) buffer
returns `None` — byte-for-byte the same result as a plain timeout on a
live buffer — so no closed-error indication distinguishable from a
timeout exists.  `read` never inspects the `stopped` flag. -/
theorem read_after_stop_cex :
    (VideoStream.read (VideoStream.stop ⟨5, [], false⟩)).fst = none ∧
    (VideoStream.read ⟨5, [], false⟩).fst = none ∧
    (VideoStream.read (VideoStream.stop ⟨5, [], false⟩)).fst
      = (VideoStream.read ⟨5, [], false⟩).fst := by
  decide

/-- C6 amended: `read` blocks up to its timeout and returns the
oldest-remaining frame when one is buffered, otherwise the timeout
result `None`; after `stop` it behaves identically (leftover frames are
still returned, and an empty queue yields the same `None` as a timeout),
rather than a distinct closed-error. -/
theorem read_behavior_amended (s : VideoStream) :
    VideoStream.read s = (s.Q.head?, { s with Q := s.Q.tail }) ∧
    VideoStream.read (VideoStream.stop s)
      = (s.Q.head?, { s with Q := s.Q.tail, stopped := true }) := by
  obtain ⟨cap, Q, stp⟩ := s
  cases Q with
  | nil => simp [VideoStream.read, VideoStream.stop]
  | cons f rest => simp [VideoStream.read, VideoStream.stop]

/-- C7 counterexample: constructing the stream with `queue_size = 0`
succeeds (Python performs no validation; `queue.Queue(maxsize=0)` is
legal), contradicting "the constructor fails". -/
theorem init_zero_capacity_cex :
    VideoStream.init 0 = some ⟨0, [], false⟩ ∧
    (VideoStream.init 0).isSome = true := by
  decide

/-- C7 amended: capacity 0 is accepted at construction and yields an
unbounded buffer: a Python `Queue` with `maxsize = 0` is never `full()`,
so a push on a capacity-0 stream always appends and never evicts. -/
theorem init_zero_capacity_amended :
    (VideoStream.init 0).isSome = true ∧
    ∀ (s : VideoStream) (f : Nat), s.capacity = 0 →
      VideoStream.update_push s f = { s with Q := s.Q ++ [f] } := by
  refine ⟨by decide, ?_⟩
  intro s f h
  obtain ⟨cap, Q, stp⟩ := s
  simp only at h
  subst h
  simp [VideoStream.update_push, VideoStream.qFull]

/-- Witness for C7 amended: a capacity-0 stream accepts a push of frame
7 onto a queue that already holds 3 frames, retaining all 4. -/
theorem init_zero_capacity_amended_witness :
    (VideoStream.init 0).isSome = true ∧
    ((⟨0, [1, 2, 3], false⟩ : VideoStream).capacity = 0 ∧
      VideoStream.update_push ⟨0, [1, 2, 3], false⟩ 7
        = ⟨0, [1, 2, 3, 7], false⟩) :=
  ⟨(init_zero_capacity_amended).1,
   by decide,
   by
    have h := (init_zero_capacity_amended).2 ⟨0, [1, 2, 3], false⟩ 7 rfl
    simpa using h⟩

/-- C1: when fewer than 15 seconds have elapsed since the last accepted
greeting, `greet_person` is a no-op for any supplied name: the whole
state — `identified`, `current_person`, `last_greeting_time`,
`chat_history` and the log of spoken utterances — is returned
unchanged. -/
theorem greet_person_debounce_noop (now : ℚ) (hour minute : Nat)
    (st : BotState) (person_name : String)
    (h : now - st.last_greeting_time < 15) :
    greet_person now hour minute st person_name = st := by
  simp [greet_person, h]

/-- Witness for C1: 10 seconds after a greeting at time 0, greeting
"Bob" leaves the state untouched. -/
theorem greet_person_debounce_noop_witness :
    (10 : ℚ) - (⟨false, none, 0, [], []⟩ : BotState).last_greeting_time < 15 ∧
    greet_person 10 9 30 ⟨false, none, 0, [], []⟩ "Bob"
      = ⟨false, none, 0, [], []⟩ :=
  ⟨by norm_num, greet_person_debounce_noop 10 9 30 _ "Bob" (by norm_num)⟩

/-- C3: when at least 15 seconds have elapsed, `greet_person` speaks
exactly one utterance — a pure function of the hour, minute and name
alone, hence structurally identical for the same name and clock time —
chosen morning/afternoon/evening by the hour thresholds 12 and 17 and
containing both the name and the zero-padded HH:MM clock time; it sets
`last_greeting_time := now`, `identified := true`, `current_person` to
the given name, and reseeds `chat_history` with exactly one system
message referencing the name. -/
theorem greet_person_accepts (now : ℚ) (hour minute : Nat)
    (st : BotState) (person_name : String)
    (h : 15 ≤ now - st.last_greeting_time) :
    (greet_person now hour minute st person_name).spoken
      = st.spoken ++ [greetingText hour person_name (formatHM hour minute)] ∧
    (greet_person now hour minute st person_name).last_greeting_time = now ∧
    (greet_person now hour minute st person_name).identified = true ∧
    (greet_person now hour minute st person_name).current_person = some person_name ∧
    (greet_person now hour minute st person_name).chat_history
      = [⟨"system", systemPrompt person_name⟩] ∧
    (hour < 12 → greetingText hour person_name (formatHM hour minute)
      = "Good morning " ++ person_name ++ "! It's "
          ++ formatHM hour minute ++ ". How can I help you today?") ∧
    (12 ≤ hour → hour < 17 → greetingText hour person_name (formatHM hour minute)
      = "Good afternoon " ++ person_name ++ "! It's "
          ++ formatHM hour minute ++ ". What can I do for you?") ∧
    (17 ≤ hour → greetingText hour person_name (formatHM hour minute)
      = "Good evening " ++ person_name ++ "! It's "
          ++ formatHM hour minute ++ ". How may I assist you?") ∧
    (∃ p q : String,
      greetingText hour person_name (formatHM hour minute)
        = p ++ person_name ++ q) ∧
    (∃ p q : String,
      greetingText hour person_name (formatHM hour minute)
        = p ++ formatHM hour minute ++ q) := by
  have hno : ¬ (now - st.last_greeting_time < 15) := not_lt.mpr h
  refine ⟨by simp [greet_person, hno], by simp [greet_person, hno],
    by simp [greet_person, hno], by simp [greet_person, hno],
    by simp [greet_person, hno], ?_, ?_, ?_, ?_, ?_⟩
  · intro h12
    simp [greetingText, h12]
  · intro h12 h17
    simp [greetingText, Nat.not_lt.mpr h12, h17]
  · intro h17
    have h12 : ¬ hour < 12 := Nat.not_lt.mpr (le_trans (by norm_num : (12 : Nat) ≤ 17) h17)
    simp [greetingText, h12, Nat.not_lt.mpr h17]
  · unfold greetingText
    split_ifs
    · exact ⟨"Good morning ",
        "! It's " ++ formatHM hour minute ++ ". How can I help you today?",
        by simp [String.append_assoc]⟩
    · exact ⟨"Good afternoon ",
        "! It's " ++ formatHM hour minute ++ ". What can I do for you?",
        by simp [String.append_assoc]⟩
    · exact ⟨"Good evening ",
        "! It's " ++ formatHM hour minute ++ ". How may I assist you?",
        by simp [String.append_assoc]⟩
  · unfold greetingText
    split_ifs
    · exact ⟨"Good morning " ++ person_name ++ "! It's ",
        ". How can I help you today?", by simp [String.append_assoc]⟩
    · exact ⟨"Good afternoon " ++ person_name ++ "! It's ",
        ". What can I do for you?", by simp [String.append_assoc]⟩
    · exact ⟨"Good evening " ++ person_name ++ "! It's ",
        ". How may I assist you?", by simp [String.append_assoc]⟩

/-- Witness for C3: at clock 09:05, 100 seconds after time 0, greeting
"Alice" speaks exactly the morning greeting with the name and 09:05
substituted, and updates all session fields. -/
theorem greet_person_accepts_witness :
    (15 : ℚ) ≤ 100 - (⟨false, none, 0, [], []⟩ : BotState).last_greeting_time ∧
    (greet_person 100 9 5 ⟨false, none, 0, [], []⟩ "Alice").spoken
      = ["Good morning Alice! It's 09:05. How can I help you today?"] ∧
    (greet_person 100 9 5 ⟨false, none, 0, [], []⟩ "Alice").last_greeting_time = 100 ∧
    (greet_person 100 9 5 ⟨false, none, 0, [], []⟩ "Alice").identified = true ∧
    (greet_person 100 9 5 ⟨false, none, 0, [], []⟩ "Alice").current_person = some "Alice" ∧
    (greet_person 100 9 5 ⟨false, none, 0, [], []⟩ "Alice").chat_history
      = [⟨"system", "You are a helpful AI assistant talking to Alice. Be friendly and conversational."⟩] := by
  have h := greet_person_accepts 100 9 5 ⟨false, none, 0, [], []⟩ "Alice"
    (by norm_num)
  obtain ⟨h1, h2, h3, h4, h5, -⟩ := h
  refine ⟨by norm_num, ?_, h2, h3, h4, ?_⟩
  · rw [h1]
    rfl
  · rw [h5]
    rfl

/-- C4: while a person is identified, `detect_and_recognize` returns no
identity regardless of the detector and recognizer oracles — so even a
frame matching a different person yields no identity event — and the
recognition step of the main loop leaves the state unchanged and starts
no chat session. -/
theorem gate_inactive_while_identified (detect : Nat → List Nat)
    (identify : Nat → Nat → Option String) (now : ℚ) (hour minute : Nat)
    (st : BotState) (frame : Nat) (h : st.identified = true) :
    detect_and_recognize detect identify st.identified frame = none ∧
    runStep detect identify now hour minute st frame = (st, false) := by
  constructor
  · simp [detect_and_recognize, h]
  · simp [runStep, h]

/-- Witness for C4: with "Alice" identified and chatting, a frame in
which the oracles detect a face and recognize "Bob" produces no
identity and no state change. -/
theorem gate_inactive_while_identified_witness :
    ((⟨true, some "Alice", 0, [], []⟩ : BotState).identified = true) ∧
    detect_and_recognize (fun _ => [0]) (fun _ _ => some "Bob")
      (⟨true, some "Alice", 0, [], []⟩ : BotState).identified 42 = none ∧
    runStep (fun _ => [0]) (fun _ _ => some "Bob") 1000 14 30
      ⟨true, some "Alice", 0, [], []⟩ 42
      = (⟨true, some "Alice", 0, [], []⟩, false) := by
  have h := gate_inactive_while_identified (fun _ => [0])
    (fun _ _ => some "Bob") 1000 14 30 ⟨true, some "Alice", 0, [], []⟩ 42 rfl
  exact ⟨rfl, h.1, h.2⟩

/-- C5 counterexample: with no playback in progress but one utterance
queued, `stop_current_speech` is a no-op (its guard
`if self.engine and self.is_speaking` fails), so immediately after the
call the queue is non-empty and `is_busy()` still reports `True` —
refuting the claim for the "no playback active but items queued"
state it explicitly includes. -/
theorem stop_current_speech_idle_queue_cex :
    is_busy ⟨true, ["hello"], false, []⟩ = true ∧
    stop_current_speech ⟨true, ["hello"], false, []⟩
      = ⟨true, ["hello"], false, []⟩ ∧
    (stop_current_speech ⟨true, ["hello"], false, []⟩).speech_queue ≠ [] ∧
    is_busy (stop_current_speech ⟨true, ["hello"], false, []⟩) = true := by
  decide

/-- C5 amended: `stop_current_speech` empties the queue and leaves the
worker idle only when invoked while a playback is in progress (and the
engine exists); when no playback is active it is a no-op and any queued
utterances remain. -/
theorem stop_current_speech_amended (s : TTSState) :
    (s.engineOk = true → s.is_speaking = true →
      (stop_current_speech s).speech_queue = [] ∧
      (stop_current_speech s).is_speaking = false ∧
      is_busy (stop_current_speech s) = false) ∧
    (s.is_speaking = false → stop_current_speech s = s) := by
  constructor
  · intro h1 h2
    simp [stop_current_speech, h1, h2, is_busy]
  · intro h
    simp [stop_current_speech, h]

/-- Witness for C5 amended: interrupting mid-playback with two queued
utterances drains the queue and idles the worker; with the worker idle,
the call changes nothing. -/
theorem stop_current_speech_amended_witness :
    ((⟨true, ["a", "b"], true, []⟩ : TTSState).engineOk = true ∧
      (⟨true, ["a", "b"], true, []⟩ : TTSState).is_speaking = true ∧
      (stop_current_speech ⟨true, ["a", "b"], true, []⟩).speech_queue = [] ∧
      is_busy (stop_current_speech ⟨true, ["a", "b"], true, []⟩) = false) ∧
    ((⟨true, ["c"], false, []⟩ : TTSState).is_speaking = false ∧
      stop_current_speech ⟨true, ["c"], false, []⟩ = ⟨true, ["c"], false, []⟩) := by
  have h1 := (stop_current_speech_amended ⟨true, ["a", "b"], true, []⟩).1 rfl rfl
  have h2 := (stop_current_speech_amended ⟨true, ["c"], false, []⟩).2 rfl
  exact ⟨⟨rfl, rfl, h1.1, h1.2.2⟩, rfl, h2⟩

/-- C9: whenever `speak` enqueues at all (engine available, text not
empty/whitespace-only), the single item it appends to the speech queue
is `clean_text_for_speech text` — sanitization happens at enqueue time —
and on concrete inputs the sanitized form has emoji removed, `%`
expanded to " percent", `°C` expanded to " degrees Celsius", and
whitespace collapsed. -/
theorem speak_enqueues_sanitized (s : TTSState) (text : String)
    (interrupt : Bool) (heng : s.engineOk = true)
    (htext : pyStrip text ≠ "") :
    (speak s text interrupt).speech_queue.getLast?
      = some (clean_text_for_speech text) ∧
    (interrupt = false →
      (speak s text interrupt).speech_queue
        = s.speech_queue ++ [clean_text_for_speech text]) ∧
    clean_text_for_speech "It's 25°C 😀 and 40%  done"
      = "It's 25 degrees Celsius and 40 percent done" := by
  refine ⟨?_, ?_, by decide⟩
  · simp only [speak, heng, Bool.not_true, Bool.false_eq_true, if_false,
      if_neg htext]
    cases interrupt <;> simp [List.getLast?_concat]
  · intro hi
    subst hi
    simp [speak, heng, htext]

/-- Witness for C9: speaking "Hi 😀" with one item already queued
appends exactly the sanitized "Hi". -/
theorem speak_enqueues_sanitized_witness :
    ((⟨true, ["queued"], false, []⟩ : TTSState).engineOk = true) ∧
    pyStrip "Hi 😀" ≠ "" ∧
    (speak ⟨true, ["queued"], false, []⟩ "Hi 😀" false).speech_queue
      = ["queued", "Hi"] := by
  have h := speak_enqueues_sanitized ⟨true, ["queued"], false, []⟩ "Hi 😀"
    false rfl (by decide)
  refine ⟨rfl, by decide, ?_⟩
  have h2 := h.2.1 rfl
  rw [h2]
  decide

/-- C8: when the router call raises on a turn, the exception is caught
and reported as a turn-level `❌ Error in chat` message, the loop
continues with the next input, and the session state is untouched — and
in fact no turn of the loop ever changes `identified` or
`current_person`, which only the post-loop reset clears. -/
theorem chat_turn_router_failure
    (pq : String → List Msg → Except String (String × List Msg))
    (st : ChatState) (u : String) (rest : List String) (e : String)
    (hid : st.identified = true) (hrun : st.running = true)
    (hq : ¬(pyLower (pyStrip u) = "quit" ∨ pyLower (pyStrip u) = "exit"
            ∨ pyLower (pyStrip u) = "bye"))
    (hvon : pyLower (pyStrip u) ≠ "voice on")
    (hvoff : pyLower (pyStrip u) ≠ "voice off")
    (hne : pyStrip u ≠ "")
    (herr : pq (pyStrip u) st.chat_history = .error e) :
    (chat_turn pq st u).snd = true ∧
    (chat_turn pq st u).fst
      = { st with outputs := st.outputs ++ ["❌ Error in chat: " ++ e] } ∧
    (chat_turn pq st u).fst.identified = true ∧
    (chat_turn pq st u).fst.current_person = st.current_person ∧
    (chat_turn pq st u).fst.chat_history = st.chat_history ∧
    chat_loop pq st (u :: rest) = chat_loop pq (chat_turn pq st u).fst rest ∧
    (∀ st2 u2,
      (chat_turn pq st2 u2).fst.identified = st2.identified ∧
      (chat_turn pq st2 u2).fst.current_person = st2.current_person) := by
  have hturn : chat_turn pq st u
      = ({ st with outputs := st.outputs ++ ["❌ Error in chat: " ++ e] }, true) := by
    simp only [chat_turn, if_neg hq, if_neg hvon, if_neg hvoff, if_neg hne, herr]
  refine ⟨by rw [hturn], by rw [hturn], by rw [hturn]; exact hid,
    by rw [hturn], by rw [hturn], ?_, ?_⟩
  · show chat_loop pq st (u :: rest) = _
    rw [chat_loop, hid, hrun, hturn]
    simp
  · intro st2 u2
    unfold chat_turn
    by_cases h1 : pyLower (pyStrip u2) = "quit" ∨ pyLower (pyStrip u2) = "exit"
        ∨ pyLower (pyStrip u2) = "bye"
    · simp [h1]
    · rw [if_neg h1]
      by_cases h2 : pyLower (pyStrip u2) = "voice on"
      · simp [h2]
      · rw [if_neg h2]
        by_cases h3 : pyLower (pyStrip u2) = "voice off"
        · simp [h3]
        · rw [if_neg h3]
          by_cases h4 : pyStrip u2 = ""
          · simp [h4]
          · rw [if_neg h4]
            cases hpq : pq (pyStrip u2) st2.chat_history with
            | ok v =>
              obtain ⟨r, hist⟩ := v
              simp
            | error e2 => simp

/-- Witness for C8: on the query "what time is it" the router raises
"boom"; the turn reports the error, keeps "Alice" identified with her
history, and the loop proceeds to (and completes on) the next input. -/
theorem chat_turn_router_failure_witness :
    ((⟨true, some "Alice", [⟨"system", "s"⟩], true, true, [], []⟩ : ChatState).identified = true) ∧
    (fun _ _ => (Except.error "boom" : Except String (String × List Msg)))
        (pyStrip "what time is it")
        (⟨true, some "Alice", [⟨"system", "s"⟩], true, true, [], []⟩ : ChatState).chat_history
      = Except.error "boom" ∧
    (chat_turn (fun _ _ => Except.error "boom")
        ⟨true, some "Alice", [⟨"system", "s"⟩], true, true, [], []⟩
        "what time is it").snd = true ∧
    (chat_turn (fun _ _ => Except.error "boom")
        ⟨true, some "Alice", [⟨"system", "s"⟩], true, true, [], []⟩
        "what time is it").fst
      = ⟨true, some "Alice", [⟨"system", "s"⟩], true, true,
          ["❌ Error in chat: boom"], []⟩ := by
  have h := chat_turn_router_failure (fun _ _ => Except.error "boom")
    ⟨true, some "Alice", [⟨"system", "s"⟩], true, true, [], []⟩
    "what time is it" [] "boom" rfl rfl
    (by decide) (by decide) (by decide) (by decide) rfl
  refine ⟨rfl, rfl, h.1, ?_⟩
  rw [h.2.1]
  rfl

/-- C10 counterexample: on the facts-classified query "who is Alice",
the facts module raises, yet the exception is not mapped to a
"system"-tagged reply: routing silently falls through to the LLM and
returns an "ai"-tagged reply. -/
theorem route_facts_error_ai_cex :
    route
      ⟨fun _ => .error "w", fun _ => .error "n", fun _ => .ok none,
       fun _ => .error "p", fun _ => .error "boom",
       fun _ => .ok "Alice is a person."⟩
      (some "who is Alice")
      = ("ai", "Alice is a person.") ∧
    ("ai" : String) ≠ "system" := by
  constructor
  · rfl
  · decide

/-- C10 amended: `route` is a total function returning a (tag, reply)
pair for every query (including `None` and `""`).  Exceptions raised by
the weather, news and finance modules are caught and mapped to
"system"-tagged error replies; exceptions raised by the facts module and
the LLM are caught but swallowed — a facts failure falls through to the
LLM, whose non-empty answer is tagged "ai" — and only when no module
produces an answer is the "system"-tagged fallback reply returned. -/
theorem route_error_handling (o : RouterOracles) (query : Option String) :
    (∀ e, is_weather (pyStrip (query.getD "")) = true →
        o.get_weather (pyStrip (query.getD "")) = Except.error e →
        route o query = ("system", "Weather module error: " ++ e)) ∧
    (∀ e, is_weather (pyStrip (query.getD "")) = false →
        is_news (pyStrip (query.getD "")) = true →
        o.get_news (pyStrip (query.getD "")) = Except.error e →
        route o query = ("system", "News module error: " ++ e)) ∧
    (∀ e, is_weather (pyStrip (query.getD "")) = false →
        is_news (pyStrip (query.getD "")) = false →
        is_finance (pyStrip (query.getD "")) = true →
        o.extract_ticker (pyStrip (query.getD "")) = Except.error e →
        route o query = ("system", "Finance module error: " ++ e)) ∧
    (∀ e a, is_weather (pyStrip (query.getD "")) = false →
        is_news (pyStrip (query.getD "")) = false →
        is_finance (pyStrip (query.getD "")) = false →
        o.query_facts (pyStrip (query.getD "")) = Except.error e →
        o.query_groq (pyStrip (query.getD "")) = Except.ok a → a ≠ "" →
        route o query = ("ai", a)) ∧
    (∀ e e2, is_weather (pyStrip (query.getD "")) = false →
        is_news (pyStrip (query.getD "")) = false →
        is_finance (pyStrip (query.getD "")) = false →
        o.query_facts (pyStrip (query.getD "")) = Except.error e →
        o.query_groq (pyStrip (query.getD "")) = Except.error e2 →
        route o query = ("system", "Sorry — I couldn't answer that right now.")) := by
  refine ⟨?_, ?_, ?_, ?_, ?_⟩
  · intro e hw herr
    simp [route, hw, herr]
  · intro e hw hn herr
    simp [route, hw, hn, herr]
  · intro e hw hn hfin herr
    simp [route, hw, hn, hfin, herr]
  · intro e a hw hn hfin hfacts hgroq ha
    simp [route, hw, hn, hfin, hfacts, hgroq, ha]
  · intro e e2 hw hn hfin hfacts hgroq
    simp [route, hw, hn, hfin, hfacts, hgroq]

/-- Witness for C10 amended: a raised weather exception yields a
"system" reply; a facts exception with a working LLM yields an "ai"
reply; with both facts and LLM raising, the "system" fallback is
returned. -/
theorem route_error_handling_witness :
    (is_weather (pyStrip ((some "weather in Pune").getD "")) = true ∧
      route
        ⟨fun _ => .error "conn refused", fun _ => .error "n", fun _ => .ok none,
         fun _ => .error "p", fun _ => .ok none, fun _ => .ok "x"⟩
        (some "weather in Pune")
        = ("system", "Weather module error: " ++ "conn refused")) ∧
    route
      ⟨fun _ => .error "w", fun _ => .error "n", fun _ => .ok none,
       fun _ => .error "p", fun _ => .error "f", fun _ => .ok "It is Alice."⟩
      (some "who is Alice")
      = ("ai", "It is Alice.") ∧
    route
      ⟨fun _ => .error "w", fun _ => .error "n", fun _ => .ok none,
       fun _ => .error "p", fun _ => .error "f", fun _ => .error "llm down"⟩
      (some "who is Alice")
      = ("system", "Sorry — I couldn't answer that right now.") := by
  refine ⟨⟨by decide, ?_⟩, ?_, ?_⟩
  · exact (route_error_handling
      ⟨fun _ => .error "conn refused", fun _ => .error "n", fun _ => .ok none,
       fun _ => .error "p", fun _ => .ok none, fun _ => .ok "x"⟩
      (some "weather in Pune")).1 "conn refused" (by decide) rfl
  · exact (route_error_handling
      ⟨fun _ => .error "w", fun _ => .error "n", fun _ => .ok none,
       fun _ => .error "p", fun _ => .error "f", fun _ => .ok "It is Alice."⟩
      (some "who is Alice")).2.2.2.1 "f" "It is Alice."
      (by decide) (by decide) (by decide) rfl rfl (by decide)
  · exact (route_error_handling
      ⟨fun _ => .error "w", fun _ => .error "n", fun _ => .ok none,
       fun _ => .error "p", fun _ => .error "f", fun _ => .error "llm down"⟩
      (some "who is Alice")).2.2.2.2 "f" "llm down"
      (by decide) (by decide) (by decide) rfl rfl

end SmartVisionBot
